import Mathlib

/-!
Shallow embedding of the burn-scar detection pipeline of
j-indarto/indonesian-fires (src/core.py), per-pixel over the rationals.

A raster pixel carries the seven Landsat 8 bands that core.py reads
(B2 blue, B3 green, B4 red, B5 NIR, B6 SWIR1, B7 SWIR2, B10 thermal).
A masked (no-data) pixel is `none`; Earth Engine operations that
propagate masks are embedded as `Option`-valued functions.
-/

namespace IndonesianFires

/-- One pixel of a Landsat 8 image: the seven bands core.py uses. -/
structure L8Pixel where
  B2 : ℚ
  B3 : ℚ
  B4 : ℚ
  B5 : ℚ
  B6 : ℚ
  B7 : ℚ
  B10 : ℚ
deriving DecidableEq

/-- The helper `_rescale` inside cloudDensity (core.py lines 27-31):
apply an expression and linearly rescale the output, as
(value - thresholds[0]) / (thresholds[1] - thresholds[0]). -/
def rescale (value t0 t1 : ℚ) : ℚ := (value - t0) / (t1 - t0)

/-- Earth Engine normalizedDifference of two band values:
(a - b) / (a + b); division by zero yields a masked pixel. -/
def normalizedDifference (a b : ℚ) : Option ℚ :=
  if a + b = 0 then none else some ((a - b) / (a + b))

/-- The snow index img.normalizedDifference(['B3', 'B6']) of core.py line 47. -/
def ndsi (px : L8Pixel) : Option ℚ := normalizedDifference px.B3 px.B6

/-- Evidence signal of core.py line 35: blue-band brightness, rescaled over [0.1, 0.3]. -/
def blueSignal (px : L8Pixel) : ℚ := rescale px.B2 (1/10) (3/10)

/-- Evidence signal of core.py line 38: sum of the visible bands, rescaled over [0.2, 0.8]. -/
def visibleSignal (px : L8Pixel) : ℚ := rescale (px.B4 + px.B3 + px.B2) (2/10) (8/10)

/-- Evidence signal of core.py line 41: sum of the infrared bands, rescaled over [0.3, 0.8]. -/
def infraredSignal (px : L8Pixel) : ℚ := rescale (px.B5 + px.B6 + px.B7) (3/10) (8/10)

/-- Evidence signal of core.py line 44: thermal brightness, rescaled over the
descending range [300, 290]. -/
def thermalSignal (px : L8Pixel) : ℚ := rescale px.B10 300 290

/-- Evidence signal of core.py line 48: the snow index, rescaled over the
descending range [0.8, 0.6]. -/
def snowSignal (nd : ℚ) : ℚ := rescale nd (8/10) (6/10)

/-- cloudDensity (core.py lines 24-48): start from the constant image 1.0 and
take the running pixel-wise min with each of the five rescaled evidence
signals.  The snow signal divides by B3 + B6, so the score is masked where
that sum is zero (Earth Engine min propagates the mask). -/
def cloudDensity (px : L8Pixel) : Option ℚ :=
  (ndsi px).map (fun nd =>
    min (min (min (min (min 1 (blueSignal px)) (visibleSignal px))
      (infraredSignal px)) (thermalSignal px)) (snowSignal nd))

/-- cloudMask (core.py lines 51-56): binary = cloud_scores.lte(thresh);
img.mask(binary).  A pixel survives iff its score is defined and at most
the threshold; a kept pixel keeps its value in every band. -/
def cloudMask (img : Option L8Pixel) (cloud_scores : Option ℚ) (thresh : ℚ) :
    Option L8Pixel :=
  match cloud_scores with
  | none => none
  | some s => if s ≤ thresh then img else none

/-- makeCloudFree (core.py lines 59-63): cloudMask at threshold 0.5. -/
def makeCloudFree (img : Option L8Pixel) : Option L8Pixel :=
  match img with
  | none => none
  | some px => cloudMask (some px) (cloudDensity px) (5/10)

/-- A RasterCollection seen at one pixel: each image contributes its
acquisition timestamp and its (possibly masked) pixel value. -/
abbrev ImageCollectionPixel := List (ℚ × Option L8Pixel)

/-- collection.filterDate(start, end) of core.py line 88: Earth Engine keeps
images with start ≤ timestamp < end (end exclusive). -/
def filterDate (coll : ImageCollectionPixel) (start stop : ℚ) :
    ImageCollectionPixel :=
  coll.filter (fun x => decide (start ≤ x.1 ∧ x.1 < stop))

/-- Band-wise minimum of two unmasked pixels. -/
def minPix (p q : L8Pixel) : L8Pixel :=
  ⟨min p.B2 q.B2, min p.B3 q.B3, min p.B4 q.B4, min p.B5 q.B5,
   min p.B6 q.B6, min p.B7 q.B7, min p.B10 q.B10⟩

/-- Combining step of the min reduction at one pixel: masked contributions
are skipped, two unmasked contributions take the band-wise min. -/
def optMinPix : Option L8Pixel → Option L8Pixel → Option L8Pixel
  | none, q => q
  | some p, none => some p
  | some p, some q => some (minPix p q)

/-- coll.min() of core.py line 90 at one pixel: minimum over the unmasked
contributions; no-data when the collection is empty or every contribution
is masked. -/
def collectionMin (xs : List (Option L8Pixel)) : Option L8Pixel :=
  xs.foldr optMinPix none

/-- createComposite (core.py lines 84-90) at one pixel: filter the collection
by date, cloud-mask every remaining image, reduce with the pixel-wise min. -/
def createComposite (coll : ImageCollectionPixel) (start stop : ℚ) :
    Option L8Pixel :=
  collectionMin ((filterDate coll start stop).map (fun x => makeCloudFree x.2))

/-- Subtraction of two single-band pixels, mask-propagating. -/
def optSub (a b : Option ℚ) : Option ℚ :=
  match a, b with
  | some x, some y => some (x - y)
  | _, _ => none

/-- gt(t) on a single-band pixel: 1 where the value exceeds t, else 0,
mask-propagating. -/
def optGt (a : Option ℚ) (t : ℚ) : Option ℚ :=
  a.map (fun x => if t < x then 1 else 0)

/-- img.mask(img) on a single-band pixel: keep only pixels whose own value
is non-zero. -/
def selfMask (a : Option ℚ) : Option ℚ :=
  match a with
  | none => none
  | some x => if x = 0 then none else some x

/-- The normalizedDifference(['B6', 'B4']) step of core.py lines 105-106
at one pixel. -/
def nbrPixel (img : Option L8Pixel) : Option ℚ :=
  img.bind (fun px => normalizedDifference px.B6 px.B4)

/-- generateBurnRatio (core.py lines 93-108) at one pixel: build the two
cloud-free composites, re-mask them, take the NBR of each, threshold the
difference at 0.44 and self-mask the binary result. -/
def generateBurnRatio (coll : ImageCollectionPixel) (i0 i1 p0 p1 : ℚ) :
    Option ℚ :=
  selfMask (optGt (optSub
    (nbrPixel (makeCloudFree (createComposite coll p0 p1)))
    (nbrPixel (makeCloudFree (createComposite coll i0 i1)))) (44/100))

/-- A fire-event feature, as the finitely many vertices of its point or
line geometry, in planar map coordinates. -/
abbrev Geometry := List (ℚ × ℚ)

/-- Planar distance between two points; the Chebyshev metric keeps
membership inside the rationals. -/
def pointDist (p q : ℚ × ℚ) : ℚ := max |p.1 - q.1| |p.2 - q.2|

/-- f.buffer(meters) as a membership test: the points within meters of the
feature.  Earth Engine accepts a negative distance (the buffer erodes,
here to the empty region since distances are non-negative). -/
def bufferGeom (g : Geometry) (meters : ℚ) (p : ℚ × ℚ) : Bool :=
  g.any (fun q => decide (pointDist p q ≤ meters))

/-- The fatal caller errors of the spec's error taxonomy. -/
inductive CoreError where
  | invalidRange : CoreError
deriving DecidableEq

/-- loadFireBuffer (core.py lines 111-116): buffer each fire feature by
meters and union the buffers, returned as a membership test.  The source
performs no validation of meters and the backend buffer call accepts any
distance, so the body is total: no input reaches the error constructor. -/
def loadFireBuffer (fires : List Geometry) (meters : ℚ) :
    Except CoreError ((ℚ × ℚ) → Bool) :=
  Except.ok (fun p => fires.any (fun g => bufferGeom g meters p))

/-- Observer for the result of loadFireBuffer: did the call return normally? -/
def fireBufferSucceeds (fires : List Geometry) (meters : ℚ) : Bool :=
  match loadFireBuffer fires meters with
  | Except.ok _ => true
  | Except.error _ => false

/-- nbr.clip(fire_buffer) at one pixel: a pixel outside the region becomes
no-data, a pixel inside keeps its value and mask state. -/
def clipPixel (v : Option ℚ) (inRegion : Bool) : Option ℚ :=
  if inRegion then v else none

/-- main (core.py lines 119-132) at one pixel: generateBurnRatio clipped to
the unioned fire buffer. -/
def runPixel (coll : ImageCollectionPixel) (i0 i1 p0 p1 : ℚ)
    (fires : List Geometry) (meters : ℚ) (p : ℚ × ℚ) : Option ℚ :=
  match loadFireBuffer fires meters with
  | Except.ok region => clipPixel (generateBurnRatio coll i0 i1 p0 p1) (region p)
  | Except.error _ => none

/-- The pixel-wise minimum of the five rescaled evidence signals alone,
following the words of the spec; core.py line 33 additionally starts the
running minimum from the constant image 1.0, which this definition omits.
Kept separate so the two can be compared. -/
def minFiveSignals (px : L8Pixel) : Option ℚ :=
  (ndsi px).map (fun nd =>
    min (min (min (min (blueSignal px) (visibleSignal px)) (infraredSignal px))
      (thermalSignal px)) (snowSignal nd))

/-- Pre-fire concrete pixel used by the concrete instantiations: cloud score
0, NBR (1/10 - 4/10) / (5/10) = -3/5. -/
def pxInit : L8Pixel := ⟨1/10, 1/10, 4/10, 1/10, 1/10, 1/10, 300⟩

/-- Post-fire concrete pixel used by the concrete instantiations: cloud score
0, NBR (4/10 - 1/10) / (5/10) = 3/5. -/
def pxPost : L8Pixel := ⟨1/10, 1/10, 1/10, 1/10, 4/10, 1/10, 300⟩

/-- A bright, cold, snow-free pixel: every evidence signal exceeds 1, so the
running minimum is stopped by the initial constant 1.0. -/
def pxBright : L8Pixel := ⟨10, 10, 10, 10, 10, 10, 0⟩

/-- A dark pixel whose cloud score is negative (-1). -/
def pxDark : L8Pixel := ⟨0, 1, 0, 0, 0, 0, 300⟩

/-- A concrete two-image collection at one pixel: pxInit acquired at time 5,
pxPost at time 25. -/
def collW : ImageCollectionPixel := [(5, some pxInit), (25, some pxPost)]

theorem optSub_none_right (a : Option ℚ) : optSub a none = none := by
  cases a <;> rfl

theorem optSub_none_left (b : Option ℚ) : optSub none b = none := by
  cases b <;> rfl

theorem clipPixel_none_val (r : Bool) : clipPixel none r = none := by
  cases r <;> rfl

theorem selfMask_one : selfMask (some (1 : ℚ)) = some 1 := by
  norm_num [selfMask]

theorem selfMask_zero : selfMask (some (0 : ℚ)) = none := by
  norm_num [selfMask]

/-- C3: cloudMask keeps a pixel iff its cloud score is at most the
threshold; a kept pixel is returned with its value and mask state
untouched, any other pixel is no-data, and a pixel whose score is itself
masked is no-data. -/
theorem cloudMask_keeps_iff (img : Option L8Pixel) (s thresh : ℚ) :
    cloudMask img (some s) thresh = (if s ≤ thresh then img else none) ∧
    cloudMask img none thresh = none :=
  ⟨rfl, rfl⟩

/-- C4: when the date filter leaves no images, createComposite is all
no-data, generateBurnRatio with that range on either side is no-data, and
the orchestrated run is no-data; every function on this path is total, so
no error can arise. -/
theorem emptyCollection_propagates (coll : ImageCollectionPixel)
    (r0 r1 q0 q1 : ℚ) (fires : List Geometry) (meters : ℚ) (p : ℚ × ℚ)
    (h : filterDate coll r0 r1 = []) :
    createComposite coll r0 r1 = none ∧
    generateBurnRatio coll r0 r1 q0 q1 = none ∧
    generateBurnRatio coll q0 q1 r0 r1 = none ∧
    runPixel coll r0 r1 q0 q1 fires meters p = none := by
  have hc : createComposite coll r0 r1 = none := by
    unfold createComposite
    rw [h]
    rfl
  have hg1 : generateBurnRatio coll r0 r1 q0 q1 = none := by
    unfold generateBurnRatio
    rw [hc]
    rw [show nbrPixel (makeCloudFree none) = none from rfl, optSub_none_right]
    rfl
  have hg2 : generateBurnRatio coll q0 q1 r0 r1 = none := by
    unfold generateBurnRatio
    rw [hc]
    rw [show nbrPixel (makeCloudFree none) = none from rfl, optSub_none_left]
    rfl
  have hr : runPixel coll r0 r1 q0 q1 fires meters p =
      clipPixel (generateBurnRatio coll r0 r1 q0 q1)
        (fires.any (fun g => bufferGeom g meters p)) := rfl
  exact ⟨hc, hg1, hg2, by rw [hr, hg1]; exact clipPixel_none_val _⟩

theorem emptyCollection_propagates_witness :
    createComposite collW 40 50 = none ∧
    generateBurnRatio collW 40 50 20 30 = none ∧
    generateBurnRatio collW 20 30 40 50 = none ∧
    runPixel collW 40 50 20 30 [[(0, 0)]] 5 (0, 0) = none :=
  emptyCollection_propagates collW 40 50 20 30 [[(0, 0)]] 5 (0, 0) (by decide)

/-- C10: every defined pixel of the raster generateBurnRatio returns
carries exactly the value 1; the self-masked strict threshold never
leaves a 0 or any other value defined. -/
theorem generateBurnRatio_defined_is_one (coll : ImageCollectionPixel)
    (i0 i1 p0 p1 v : ℚ) (h : generateBurnRatio coll i0 i1 p0 p1 = some v) :
    v = 1 := by
  unfold generateBurnRatio at h
  cases ha : optSub (nbrPixel (makeCloudFree (createComposite coll p0 p1)))
      (nbrPixel (makeCloudFree (createComposite coll i0 i1))) with
  | none =>
    rw [ha] at h
    exact Option.noConfusion h
  | some d =>
    rw [ha] at h
    rw [show optGt (some d) (44/100) =
      some (if (44/100 : ℚ) < d then 1 else 0) from rfl] at h
    by_cases hd : (44/100 : ℚ) < d
    · rw [if_pos hd, selfMask_one] at h
      exact (Option.some_injective _ h).symm
    · rw [if_neg hd, selfMask_zero] at h
      exact Option.noConfusion h

theorem generateBurnRatio_defined_is_one_witness :
    (1 : ℚ) = 1 ∧ generateBurnRatio collW 0 10 20 30 = some 1 := by
  have hval : generateBurnRatio collW 0 10 20 30 = some 1 := by
    norm_num [generateBurnRatio, nbrPixel, makeCloudFree, createComposite, collW,
      filterDate, List.filter, collectionMin, optMinPix, cloudMask, cloudDensity,
      ndsi, normalizedDifference, blueSignal, visibleSignal, infraredSignal,
      thermalSignal, snowSignal, rescale, pxInit, pxPost, min_def, optSub, optGt,
      selfMask]
  exact ⟨generateBurnRatio_defined_is_one collW 0 10 20 30 1 hval, hval⟩

/-- C9 counterexample: calling the buffering operation with the negative
radius -1 returns normally; the buffer merely erodes (here to the empty
region), so no InvalidRangeError-style failure happens. -/
theorem loadFireBuffer_negative_returns :
    fireBufferSucceeds [[(0, 0)]] (-1) = true ∧
    bufferGeom [(0, 0)] (-1) (0, 0) = false := by
  refine ⟨rfl, ?_⟩
  norm_num [bufferGeom, pointDist, List.any]

/-- C9 amended: loadFireBuffer performs no validation of the radius; for
every input, also a negative radius, the call returns normally and never
produces the fatal InvalidRangeError, and a negative radius erodes every
buffer to the empty region. -/
theorem loadFireBuffer_no_validation (fires : List Geometry) (meters : ℚ)
    (g : Geometry) (p : ℚ × ℚ) (hneg : meters < 0) :
    fireBufferSucceeds fires meters = true ∧
    loadFireBuffer fires meters ≠ Except.error CoreError.invalidRange ∧
    bufferGeom g meters p = false := by
  refine ⟨rfl, by simp [loadFireBuffer], ?_⟩
  unfold bufferGeom
  rw [List.any_eq_false]
  intro q _hq
  have h0 : (0 : ℚ) ≤ pointDist p q :=
    le_trans (abs_nonneg _) (le_max_left _ _)
  simp only [decide_eq_true_eq]
  intro hle
  linarith

theorem loadFireBuffer_no_validation_witness :
    fireBufferSucceeds [[(0, 0)]] (-2) = true ∧
    loadFireBuffer [[(0, 0)]] (-2) ≠ Except.error CoreError.invalidRange ∧
    bufferGeom [(1, 1)] (-2) (0, 0) = false :=
  loadFireBuffer_no_validation [[(0, 0)]] (-2) [(1, 1)] (0, 0) (by norm_num)

/-- C1: generateBurnRatio takes the NBR of each cloud-free composite as the
normalized difference (B6 - B4) / (B6 + B4) over the designated SWIR band
B6 and the band B4 it designates as NIR; for a valid (non-negative) band
pair with non-zero sum the value lies in [-1, 1], and a zero sum yields
no-data rather than an error. -/
theorem generateBurnRatio_nbr_bounds (coll : ImageCollectionPixel)
    (i0 i1 p0 p1 : ℚ) (px : L8Pixel) (hs : 0 ≤ px.B6) (hn : 0 ≤ px.B4) :
    generateBurnRatio coll i0 i1 p0 p1 =
      selfMask (optGt (optSub
        (nbrPixel (makeCloudFree (createComposite coll p0 p1)))
        (nbrPixel (makeCloudFree (createComposite coll i0 i1)))) (44/100)) ∧
    (px.B6 + px.B4 = 0 → nbrPixel (some px) = none) ∧
    (px.B6 + px.B4 ≠ 0 →
      nbrPixel (some px) = some ((px.B6 - px.B4) / (px.B6 + px.B4)) ∧
      -1 ≤ (px.B6 - px.B4) / (px.B6 + px.B4) ∧
      (px.B6 - px.B4) / (px.B6 + px.B4) ≤ 1) := by
  refine ⟨rfl, ?_, ?_⟩
  · intro h
    simp [nbrPixel, normalizedDifference, h]
  · intro h
    have hpos : 0 < px.B6 + px.B4 :=
      lt_of_le_of_ne (add_nonneg hs hn) (Ne.symm h)
    refine ⟨by simp [nbrPixel, normalizedDifference, h], ?_, ?_⟩
    · rw [le_div_iff₀ hpos]
      linarith
    · rw [div_le_one hpos]
      linarith

theorem generateBurnRatio_nbr_bounds_witness :
    nbrPixel (some pxPost) =
      some ((pxPost.B6 - pxPost.B4) / (pxPost.B6 + pxPost.B4)) ∧
    -1 ≤ (pxPost.B6 - pxPost.B4) / (pxPost.B6 + pxPost.B4) ∧
    (pxPost.B6 - pxPost.B4) / (pxPost.B6 + pxPost.B4) ≤ 1 :=
  (generateBurnRatio_nbr_bounds collW 0 10 20 30 pxPost
    (by norm_num [pxPost]) (by norm_num [pxPost])).2.2 (by norm_num [pxPost])

/-- C2: generateBurnRatio classifies a pixel burned iff the NBR difference
delta exceeds 0.44 strictly (delta exactly 0.44 is not burned), and the
self-masked binary output makes every non-burned pixel no-data. -/
theorem generateBurnRatio_threshold (coll : ImageCollectionPixel)
    (i0 i1 p0 p1 di dp : ℚ)
    (hi : nbrPixel (makeCloudFree (createComposite coll i0 i1)) = some di)
    (hp : nbrPixel (makeCloudFree (createComposite coll p0 p1)) = some dp) :
    (dp - di > 44/100 → generateBurnRatio coll i0 i1 p0 p1 = some 1) ∧
    (dp - di ≤ 44/100 → generateBurnRatio coll i0 i1 p0 p1 = none) := by
  have hd : generateBurnRatio coll i0 i1 p0 p1 =
      selfMask (some (if (44/100 : ℚ) < dp - di then 1 else 0)) := by
    unfold generateBurnRatio
    rw [hi, hp]
    rfl
  constructor
  · intro hgt
    rw [hd, if_pos hgt, selfMask_one]
  · intro hle
    rw [hd, if_neg (not_lt.mpr hle), selfMask_zero]

theorem generateBurnRatio_threshold_witness :
    generateBurnRatio collW 0 10 20 30 = some 1 := by
  have hi : nbrPixel (makeCloudFree (createComposite collW 0 10)) =
      some (-3/5) := by
    norm_num [nbrPixel, makeCloudFree, createComposite, collW, filterDate,
      List.filter, collectionMin, optMinPix, cloudMask, cloudDensity, ndsi,
      normalizedDifference, blueSignal, visibleSignal, infraredSignal,
      thermalSignal, snowSignal, rescale, pxInit, pxPost, min_def]
  have hp : nbrPixel (makeCloudFree (createComposite collW 20 30)) =
      some (3/5) := by
    norm_num [nbrPixel, makeCloudFree, createComposite, collW, filterDate,
      List.filter, collectionMin, optMinPix, cloudMask, cloudDensity, ndsi,
      normalizedDifference, blueSignal, visibleSignal, infraredSignal,
      thermalSignal, snowSignal, rescale, pxInit, pxPost, min_def]
  exact (generateBurnRatio_threshold collW 0 10 20 30 (-3/5) (3/5) hi hp).1
    (by norm_num)

theorem minPix_comm (p q : L8Pixel) : minPix p q = minPix q p := by
  simp [minPix, min_comm]

theorem minPix_left_comm (p q r : L8Pixel) :
    minPix p (minPix q r) = minPix q (minPix p r) := by
  simp [minPix, min_left_comm]

theorem optMinPix_left_comm (a b c : Option L8Pixel) :
    optMinPix a (optMinPix b c) = optMinPix b (optMinPix a c) := by
  cases a <;> cases b <;> cases c <;>
    simp [optMinPix, minPix_comm, minPix_left_comm]

theorem collectionMin_perm {xs ys : List (Option L8Pixel)} (h : xs.Perm ys) :
    collectionMin xs = collectionMin ys := by
  induction h with
  | nil => rfl
  | cons x _ ih =>
    simp only [collectionMin, List.foldr_cons] at ih ⊢
    rw [ih]
  | swap x y l =>
    simp only [collectionMin, List.foldr_cons]
    exact optMinPix_left_comm y x (List.foldr optMinPix none l)
  | trans _ _ ih1 ih2 => exact ih1.trans ih2

/-- C5: createComposite is invariant under any permutation of the input
collection: the date filter keeps the same multiset of images and the
pixel-wise min reduction does not depend on their order. -/
theorem createComposite_perm_invariant (c c' : ImageCollectionPixel)
    (h : c.Perm c') (r0 r1 : ℚ) :
    createComposite c r0 r1 = createComposite c' r0 r1 := by
  unfold createComposite
  exact collectionMin_perm (((h.filter _).map _))

theorem createComposite_perm_invariant_witness :
    createComposite [(5, some pxInit), (25, some pxPost)] 0 30 =
      createComposite [(25, some pxPost), (5, some pxInit)] 0 30 :=
  createComposite_perm_invariant _ _ (List.Perm.swap _ _ _) 0 30

/-- C6 counterexample: on the uniformly bright, cold pixel pxBright every
evidence signal exceeds 1 and the minimum of the five signals is 4, yet
cloudDensity returns 1; the running minimum starts from the constant
image 1.0, so the final score is not the minimum of the five signals. -/
theorem cloudDensity_not_min_of_five :
    cloudDensity pxBright = some 1 ∧ minFiveSignals pxBright = some 4 ∧
    cloudDensity pxBright ≠ minFiveSignals pxBright := by
  have h1 : cloudDensity pxBright = some 1 := by
    norm_num [cloudDensity, ndsi, normalizedDifference, blueSignal,
      visibleSignal, infraredSignal, thermalSignal, snowSignal, rescale,
      pxBright, min_def]
  have h2 : minFiveSignals pxBright = some 4 := by
    norm_num [minFiveSignals, ndsi, normalizedDifference, blueSignal,
      visibleSignal, infraredSignal, thermalSignal, snowSignal, rescale,
      pxBright, min_def]
  refine ⟨h1, h2, ?_⟩
  rw [h1, h2]
  intro hcontr
  exact absurd (Option.some_injective _ hcontr) (by norm_num)

/-- C6 amended: wherever the snow index is defined, the final cloud score
equals the pixel-wise minimum of the constant 1.0 and the five rescaled
evidence signals; hence the score is at most every one of the five
signals, and the rescaled blue signal is non-decreasing in blue-band
brightness. -/
theorem cloudDensity_min_with_one (px : L8Pixel) (nd s b b' : ℚ)
    (hnd : ndsi px = some nd) (hs : cloudDensity px = some s) (hb : b ≤ b') :
    s = min (min (min (min (min 1 (blueSignal px)) (visibleSignal px))
      (infraredSignal px)) (thermalSignal px)) (snowSignal nd) ∧
    s ≤ blueSignal px ∧ s ≤ visibleSignal px ∧ s ≤ infraredSignal px ∧
    s ≤ thermalSignal px ∧ s ≤ snowSignal nd ∧
    blueSignal { px with B2 := b } ≤ blueSignal { px with B2 := b' } := by
  simp only [cloudDensity, hnd, Option.map_some'] at hs
  have hval := (Option.some_injective _ hs).symm
  have t0 : s ≤ min (min (min (min 1 (blueSignal px)) (visibleSignal px))
      (infraredSignal px)) (thermalSignal px) := hval ▸ min_le_left _ _
  have t1 : s ≤ min (min (min 1 (blueSignal px)) (visibleSignal px))
      (infraredSignal px) := t0.trans (min_le_left _ _)
  have t2 : s ≤ min (min 1 (blueSignal px)) (visibleSignal px) :=
    t1.trans (min_le_left _ _)
  have t3 : s ≤ min 1 (blueSignal px) := t2.trans (min_le_left _ _)
  refine ⟨hval, t3.trans (min_le_right _ _), t2.trans (min_le_right _ _),
    t1.trans (min_le_right _ _), t0.trans (min_le_right _ _),
    hval ▸ min_le_right _ _, ?_⟩
  show rescale b (1/10) (3/10) ≤ rescale b' (1/10) (3/10)
  unfold rescale
  rw [div_le_div_iff_of_pos_right (by norm_num : (0:ℚ) < 3/10 - 1/10)]
  linarith

theorem cloudDensity_min_with_one_witness :
    (0 : ℚ) = min (min (min (min (min 1 (blueSignal pxPost))
      (visibleSignal pxPost)) (infraredSignal pxPost))
      (thermalSignal pxPost)) (snowSignal (-3/5)) ∧
    (0 : ℚ) ≤ blueSignal pxPost ∧ (0 : ℚ) ≤ visibleSignal pxPost ∧
    (0 : ℚ) ≤ infraredSignal pxPost ∧ (0 : ℚ) ≤ thermalSignal pxPost ∧
    (0 : ℚ) ≤ snowSignal (-3/5) ∧
    blueSignal { pxPost with B2 := 0 } ≤ blueSignal { pxPost with B2 := 1 } := by
  have hnd : ndsi pxPost = some (-3/5) := by
    norm_num [ndsi, normalizedDifference, pxPost]
  have hs : cloudDensity pxPost = some 0 := by
    norm_num [cloudDensity, ndsi, normalizedDifference, blueSignal,
      visibleSignal, infraredSignal, thermalSignal, snowSignal, rescale,
      pxPost, min_def]
  exact cloudDensity_min_with_one pxPost (-3/5) 0 0 1 hnd hs (by norm_num)

/-- C7 counterexample: the dark pixel pxDark has every source band defined,
yet its cloud score is -1, outside [0, 1]; the rescaled signals are not
clamped below before the minimum is taken. -/
theorem cloudDensity_not_in_unit_interval :
    cloudDensity pxDark = some (-1) ∧ ¬ (0 ≤ (-1 : ℚ)) := by
  constructor
  · norm_num [cloudDensity, ndsi, normalizedDifference, blueSignal,
      visibleSignal, infraredSignal, thermalSignal, snowSignal, rescale,
      pxDark, min_def]
  · norm_num

/-- C7 amended: wherever the cloud score is defined, its value is at most
1; the lower bound 0 does not hold (the score can be negative). -/
theorem cloudDensity_le_one (px : L8Pixel) (s : ℚ)
    (h : cloudDensity px = some s) : s ≤ 1 := by
  cases hnd : ndsi px with
  | none =>
    simp only [cloudDensity, hnd, Option.map_none'] at h
    exact Option.noConfusion h
  | some nd =>
    simp only [cloudDensity, hnd, Option.map_some'] at h
    have hval := (Option.some_injective _ h).symm
    have t0 : s ≤ min (min (min (min 1 (blueSignal px)) (visibleSignal px))
        (infraredSignal px)) (thermalSignal px) := hval ▸ min_le_left _ _
    have t3 : s ≤ min 1 (blueSignal px) :=
      ((t0.trans (min_le_left _ _)).trans (min_le_left _ _)).trans
        (min_le_left _ _)
    exact t3.trans (min_le_left _ _)

theorem cloudDensity_le_one_witness :
    cloudDensity pxPost = some 0 ∧ (0 : ℚ) ≤ 1 := by
  have h : cloudDensity pxPost = some 0 := by
    norm_num [cloudDensity, ndsi, normalizedDifference, blueSignal,
      visibleSignal, infraredSignal, thermalSignal, snowSignal, rescale,
      pxPost, min_def]
  exact ⟨h, cloudDensity_le_one pxPost 0 h⟩

theorem rescale_antitone_of_desc (x y t0 t1 : ℚ) (hxy : x ≤ y)
    (hdesc : t1 < t0) : rescale y t0 t1 ≤ rescale x t0 t1 := by
  unfold rescale
  rw [div_le_div_right_of_neg (by linarith : t1 - t0 < 0)]
  linarith

/-- C8: the rescale helper applied to a descending threshold pair high,
low is (raw - high) / (low - high), instantiated at the thermal range
[300, 290] and the snow range [0.8, 0.6]; it is non-increasing in the raw
value, and consequently the combined cloud score is non-increasing in the
thermal band. -/
theorem rescale_descending_antitone (raw raw' : ℚ) (px : L8Pixel)
    (t t' s s' : ℚ) (hraw : raw ≤ raw') (ht : t ≤ t')
    (hs : cloudDensity { px with B10 := t } = some s)
    (hs' : cloudDensity { px with B10 := t' } = some s') :
    rescale raw 300 290 = (raw - 300) / (290 - 300) ∧
    rescale raw (8/10) (6/10) = (raw - 8/10) / (6/10 - 8/10) ∧
    rescale raw' 300 290 ≤ rescale raw 300 290 ∧
    rescale raw' (8/10) (6/10) ≤ rescale raw (8/10) (6/10) ∧
    s' ≤ s := by
  have hmono : rescale t' 300 290 ≤ rescale t 300 290 :=
    rescale_antitone_of_desc t t' 300 290 ht (by norm_num)
  have hnd_eq : ndsi { px with B10 := t } = ndsi px := rfl
  have hnd_eq' : ndsi { px with B10 := t' } = ndsi px := rfl
  refine ⟨rfl, rfl, rescale_antitone_of_desc raw raw' 300 290 hraw
    (by norm_num), rescale_antitone_of_desc raw raw' (8/10) (6/10) hraw
    (by norm_num), ?_⟩
  cases hnd : ndsi px with
  | none =>
    rw [show cloudDensity { px with B10 := t } =
      (ndsi { px with B10 := t }).map (fun nd =>
        min (min (min (min (min 1 (blueSignal { px with B10 := t }))
          (visibleSignal { px with B10 := t }))
          (infraredSignal { px with B10 := t }))
          (thermalSignal { px with B10 := t })) (snowSignal nd)) from rfl,
      hnd_eq, hnd, Option.map_none'] at hs
    exact Option.noConfusion hs
  | some nd =>
    simp only [cloudDensity, hnd_eq, hnd_eq', hnd, Option.map_some'] at hs hs'
    have hval := (Option.some_injective _ hs).symm
    have hval' := (Option.some_injective _ hs').symm
    have e1 : blueSignal { px with B10 := t' } =
        blueSignal { px with B10 := t } := rfl
    have e2 : visibleSignal { px with B10 := t' } =
        visibleSignal { px with B10 := t } := rfl
    have e3 : infraredSignal { px with B10 := t' } =
        infraredSignal { px with B10 := t } := rfl
    have e4 : thermalSignal { px with B10 := t } = rescale t 300 290 := rfl
    have e4' : thermalSignal { px with B10 := t' } = rescale t' 300 290 := rfl
    rw [hval, hval', e1, e2, e3, e4, e4']
    exact min_le_min (min_le_min (le_refl _) hmono) (le_refl _)

theorem rescale_descending_antitone_witness :
    rescale 0 300 290 = (0 - 300) / (290 - 300) ∧
    rescale 0 (8/10) (6/10) = (0 - 8/10) / (6/10 - 8/10) ∧
    rescale 1 300 290 ≤ rescale 0 300 290 ∧
    rescale 1 (8/10) (6/10) ≤ rescale 0 (8/10) (6/10) ∧
    (-1 : ℚ) ≤ 0 := by
  have hs : cloudDensity { pxPost with B10 := 300 } = some 0 := by
    norm_num [cloudDensity, ndsi, normalizedDifference, blueSignal,
      visibleSignal, infraredSignal, thermalSignal, snowSignal, rescale,
      pxPost, min_def]
  have hs' : cloudDensity { pxPost with B10 := 310 } = some (-1) := by
    norm_num [cloudDensity, ndsi, normalizedDifference, blueSignal,
      visibleSignal, infraredSignal, thermalSignal, snowSignal, rescale,
      pxPost, min_def]
  exact rescale_descending_antitone 0 1 pxPost 300 310 0 (-1) (by norm_num)
    (by norm_num) hs hs'

end IndonesianFires
